import Mathlib

/-!
Verification of the `FoxImage` component (src/components/FoxImage.jsx,
final revision). The component keeps two pieces of local state
(`image`, initially the bundled `foxLogo` asset, and `loading`,
initially `true`), defines `fetchNewImage` (set `loading` to true,
issue one GET to `API_URL`, on an ok response parse the JSON body and
set `image` to `data.image` and `loading` to false, on any error only
log it), runs `fetchNewImage` once at mount via an effect with an
empty dependency list, and renders a paragraph, a conditional
loading-indicator paragraph (shown when `loading` is false), the
image, and a button whose click handler is `fetchNewImage`.

The embedding models `fetchNewImage` as the list of primitive actions
it performs (state writes, the network request, error logging), the
component state as a structure, and the surrounding component as a
small event-step system.
-/

/-- The fixed endpoint constant `API_URL` from the source. -/
def API_URL : String := "https://randomfox.ca/floof/"

/-- The bundled default asset imported as `foxLogo` in the source. -/
def foxLogo : String := "../assets/fox-logo.png"

/-- The component's local state: the current image reference and the
loading flag. `image` is an `Option String`: `some u` is a defined
URI string, `none` is the JavaScript `undefined` value (which
`data.image` yields when the parsed body lacks the field). -/
structure ImageState where
  image : Option String
  loading : Bool
  deriving DecidableEq, Repr

/-- The parsed JSON body of a response: `image` is `some u` when the
body has an `image` field with value `u`, and `none` when the field is
absent (reading it yields `undefined`). -/
structure JsonBody where
  image : Option String
  deriving DecidableEq, Repr

/-- The outcome of one `fetch(API_URL)` call, as `fetchNewImage`
observes it: the request itself fails (network error), or a response
arrives with an `ok` flag and a body whose JSON parse either fails or
produces a `JsonBody`. -/
inductive FetchOutcome where
  | networkError (msg : String)
  | response (ok : Bool) (body : Except String JsonBody)
  deriving Repr

/-- Primitive actions performed by `fetchNewImage`: the two state
setters, the network request itself, and logging to the console. -/
inductive EffAction where
  | setLoading (b : Bool)
  | setImage (v : Option String)
  | netRequest (url : String)
  | logError (msg : String)
  deriving DecidableEq, Repr

/-- The actions of the promise chain after the response arrives,
translated clause by clause from the source: a rejected fetch goes to
`.catch` and is logged; `if (!response.ok) { throw new Error("Failed
to fetch image"); }` turns a non-ok response into a logged error; a
failing `response.json()` is likewise caught and logged; otherwise
`setImage(data.image)` then `setLoading(false)`. -/
def resolutionActions : FetchOutcome → List EffAction
  | .networkError msg => [.logError msg]
  | .response ok body =>
      if ok then
        match body with
        | .error msg => [.logError msg]
        | .ok data => [.setImage data.image, .setLoading false]
      else
        [.logError "Failed to fetch image"]

/-- The synchronous part of `fetchNewImage`, in source order:
`setLoading(true)` and then the single `fetch(API_URL)`. -/
def requestPhase : List EffAction :=
  [.setLoading true, .netRequest API_URL]

/-- All actions of one invocation of `fetchNewImage` whose request
resolves with outcome `out`. -/
def fetchNewImageActions (out : FetchOutcome) : List EffAction :=
  requestPhase ++ resolutionActions out

/-- Effect of one action on the component state; the request and the
console log do not touch the state. -/
def applyAction (s : ImageState) : EffAction → ImageState
  | .setLoading b => { s with loading := b }
  | .setImage v => { s with image := v }
  | .netRequest _ => s
  | .logError _ => s

/-- Run a list of actions on a state, left to right. -/
def runActions (s : ImageState) (acts : List EffAction) : ImageState :=
  acts.foldl applyAction s

/-- One complete invocation of `fetchNewImage` on state `s` whose
request resolves with outcome `out`: the resulting component state. -/
def fetchNewImage (s : ImageState) (out : FetchOutcome) : ImageState :=
  runActions s (fetchNewImageActions out)

/-- The console-log messages emitted by a list of actions. -/
def logsOf (acts : List EffAction) : List String :=
  acts.filterMap fun a =>
    match a with
    | .logError m => some m
    | _ => none

/-- The number of network requests issued by a list of actions. -/
def netCount (acts : List EffAction) : Nat :=
  acts.countP fun a =>
    match a with
    | .netRequest _ => true
    | _ => false

/-- An outcome on which the promise chain takes an error path: the
request failed, the response was not ok, or the JSON parse failed. -/
def FetchOutcome.isError : FetchOutcome → Bool
  | .networkError _ => true
  | .response ok body =>
      !ok ||
        match body with
        | .error _ => true
        | .ok _ => false

/-- A successful outcome whose parsed body is `{ image: X }`. -/
def successOutcome (x : String) : FetchOutcome :=
  .response true (.ok ⟨some x⟩)

/- ## The component as an event-step system -/

/-- The component plus bookkeeping of its environment: its state, how
many requests are outstanding, and how many network calls have been
issued in total. -/
structure World where
  st : ImageState
  outstanding : Nat
  calls : Nat
  deriving DecidableEq, Repr

/-- Events acting on the component: the mount effect firing, a click
on the button, and an outstanding request completing with an
outcome. -/
inductive Event where
  | mount
  | click
  | complete (out : FetchOutcome)
  deriving Repr

/-- The component's state right after instantiation: the two
`useState` initialisers give `image = foxLogo`, `loading = true`; no
request has been issued yet. -/
def initWorld : World :=
  { st := { image := some foxLogo, loading := true }
    outstanding := 0
    calls := 0 }

/-- One step of the component. Mount and click both invoke
`fetchNewImage`: its synchronous part runs (`requestPhase`), one more
request is outstanding and one more network call has been issued.
Completion of a request runs the promise-chain actions for its
outcome. -/
def stepWorld (w : World) : Event → World
  | .mount =>
      { st := runActions w.st requestPhase
        outstanding := w.outstanding + 1
        calls := w.calls + 1 }
  | .click =>
      { st := runActions w.st requestPhase
        outstanding := w.outstanding + 1
        calls := w.calls + 1 }
  | .complete out =>
      { st := runActions w.st (resolutionActions out)
        outstanding := w.outstanding - 1
        calls := w.calls }

/- ## Render -/

/-- The nodes the component can render. -/
inductive Node where
  | text (s : String)
  | para (s : String)
  | img (src : Option String) (alt : String)
  | button (label : String)
  deriving DecidableEq, Repr

/-- The component's render output, translated from the JSX: a static
paragraph, `loading ? "" : <p> Loading...</p>`, the image with the
current `image` as source, and the button. -/
def render (s : ImageState) : List Node :=
  [ .para "Learn more about us!"
    , if s.loading then .text "" else .para " Loading..."
    , .img s.image "A Random Fox"
    , .button "Get New Fox" ]

/-- Whether a node is the loading-indicator paragraph. -/
def isLoadingIndicator : Node → Bool
  | .para s => s == " Loading..."
  | _ => false

/-- Whether a render output shows the loading indicator. -/
def showsLoadingIndicator (ns : List Node) : Bool :=
  ns.any isLoadingIndicator

/- ## The mount effect's firing discipline -/

/-- The dependency list passed to the effect hook in
`useEffect(fetchNewImage, [])`: the empty list, identical at every
render. -/
def mountDeps : List String := []

/-- Whether the effect fires at render number `i` (renders are
numbered from 0): at the first render it always fires, at a
re-render it fires only if the dependency list changed since the
previous render — and `mountDeps` never changes. -/
def effectFires : Nat → Bool
  | 0 => true
  | _ + 1 => decide (mountDeps ≠ mountDeps)

/-- How many times the mount effect has fired after `n` renders. -/
def mountEffectInvocations : Nat → Nat
  | 0 => 0
  | n + 1 => mountEffectInvocations n + (if effectFires n then 1 else 0)

/- ## Theorems -/

/-- C1: for every invocation of `fetchNewImage` that resolves with an
ok response whose JSON body has `image = X`, the resulting state has
`image = X` and `loading = false`. -/
theorem C1_success_sets_image_and_clears_loading
    (s : ImageState) (x : String) :
    fetchNewImage s (successOutcome x) = { image := some x, loading := false } := by
  rfl

/-- C2: every invocation of `fetchNewImage` whose request ends in an
error (network failure, non-ok status, or JSON parse failure) leaves
the image unchanged from its pre-request value, leaves the loading
flag true, and logs exactly one message to the console. -/
theorem C2_error_keeps_image_and_loading_true
    (s : ImageState) (out : FetchOutcome) (h : out.isError = true) :
    fetchNewImage s out = { image := s.image, loading := true } ∧
    (logsOf (fetchNewImageActions out)).length = 1 := by
  cases out with
  | networkError msg => exact ⟨rfl, rfl⟩
  | response ok body =>
    cases ok with
    | false => exact ⟨rfl, rfl⟩
    | true =>
      cases body with
      | error msg => exact ⟨rfl, rfl⟩
      | ok data => simp [FetchOutcome.isError] at h

/-- Witness for C2 at a concrete network error on the initial state. -/
theorem C2_error_keeps_image_and_loading_true_witness :
    fetchNewImage { image := some foxLogo, loading := true }
        (FetchOutcome.networkError "TypeError") =
      { image := some foxLogo, loading := true } ∧
    (logsOf (fetchNewImageActions (FetchOutcome.networkError "TypeError"))).length = 1 :=
  C2_error_keeps_image_and_loading_true
    { image := some foxLogo, loading := true }
    (FetchOutcome.networkError "TypeError") rfl

/-- C3 counterexample: the biconditional invariant "loading is true
exactly while a request is outstanding" already fails at
initialisation (loading is true with no request outstanding), holds
after the mount request starts, and fails again after a failing
resolution (the request is gone but loading remains true). -/
theorem C3_counterexample :
    ¬ (initWorld.st.loading = true ↔ 0 < initWorld.outstanding) ∧
    ((stepWorld initWorld Event.mount).st.loading = true ↔
      0 < (stepWorld initWorld Event.mount).outstanding) ∧
    ¬ ((stepWorld (stepWorld initWorld Event.mount)
          (Event.complete (FetchOutcome.networkError "TypeError"))).st.loading = true ↔
        0 < (stepWorld (stepWorld initWorld Event.mount)
          (Event.complete (FetchOutcome.networkError "TypeError"))).outstanding) := by
  refine ⟨?_, ?_, ?_⟩ <;> decide

/-- C3 amended: only one direction holds, and only under the
component's own at-most-one-outstanding-request bookkeeping: from
any world with at most one outstanding request, after any event the
loading flag is true whenever a request is outstanding. The converse
direction of the claimed biconditional is false (see the
counterexample): loading is true with no request outstanding at
initialisation and after a failing resolution. -/
theorem C3_outstanding_implies_loading_preserved
    (w : World) (e : Event)
    (hone : w.outstanding ≤ 1) :
    0 < (stepWorld w e).outstanding → (stepWorld w e).st.loading = true := by
  cases e with
  | mount => intro _; rfl
  | click => intro _; rfl
  | complete out =>
    intro hpos
    simp only [stepWorld] at hpos
    omega

/-- Witness for the amended C3 at the initial world and mount event. -/
theorem C3_outstanding_implies_loading_preserved_witness :
    (stepWorld initWorld Event.mount).st.loading = true :=
  C3_outstanding_implies_loading_preserved initWorld Event.mount
    (by decide) (by decide)

/-- C4: the render output is a pure function of `ImageState` (two
states agreeing on both fields render identically), and the loading
indicator is shown exactly when the loading flag is false. -/
theorem C4_render_pure_indicator_iff_not_loading
    (s t : ImageState) (h1 : s.image = t.image) (h2 : s.loading = t.loading) :
    render s = render t ∧
    showsLoadingIndicator (render s) = !s.loading := by
  constructor
  · obtain ⟨i, l⟩ := s
    obtain ⟨j, m⟩ := t
    simp_all [render]
  · obtain ⟨i, l⟩ := s
    cases l <;> rfl

/-- Witness for C4 at the initial state compared with itself. -/
theorem C4_render_pure_indicator_iff_not_loading_witness :
    render { image := some foxLogo, loading := true } =
      render { image := some foxLogo, loading := true } ∧
    showsLoadingIndicator (render { image := some foxLogo, loading := true }) = !true :=
  C4_render_pure_indicator_iff_not_loading
    { image := some foxLogo, loading := true }
    { image := some foxLogo, loading := true } rfl rfl

/-- C5: at instantiation, before any response arrives, the image is
the bundled default asset and the loading flag is true. -/
theorem C5_initial_state :
    initWorld.st.image = some foxLogo ∧ initWorld.st.loading = true :=
  ⟨rfl, rfl⟩

/-- C6: the mount effect, gated by an empty dependency list, has
fired exactly once after any positive number of renders: once at the
first render and never on a re-render. -/
theorem C6_mount_effect_fires_once (n : Nat) (h : 1 ≤ n) :
    mountEffectInvocations n = 1 := by
  induction n with
  | zero => exact absurd h (by omega)
  | succ k ih =>
    cases k with
    | zero => rfl
    | succ m =>
      have hk : mountEffectInvocations (m + 1) = 1 := ih (by omega)
      show mountEffectInvocations (m + 1) + (if effectFires (m + 1) then 1 else 0) = 1
      rw [hk]
      rfl

/-- Witness for C6 after three renders. -/
theorem C6_mount_effect_fires_once_witness : mountEffectInvocations 3 = 1 :=
  C6_mount_effect_fires_once 3 (by decide)

/-- C7: every invocation of `fetchNewImage` begins by setting the
loading flag to true and only then issues the network request, and
the whole invocation issues exactly one network request, whatever
the outcome. -/
theorem C7_loading_first_single_request (out : FetchOutcome) :
    (fetchNewImageActions out).take 2 =
      [EffAction.setLoading true, EffAction.netRequest API_URL] ∧
    netCount (fetchNewImageActions out) = 1 := by
  refine ⟨rfl, ?_⟩
  cases out with
  | networkError msg => rfl
  | response ok body => cases ok <;> cases body <;> rfl

/-- C8: a click on the button issues exactly one new request (one
more network call, one more outstanding request, and the synchronous
phase contains a single request) and does not alter the image until
that request resolves: after the click and before resolution the
image keeps its pre-request value and only the loading flag has
changed (to true). -/
theorem C8_click_single_request_image_unchanged (w : World) :
    (stepWorld w Event.click).st.image = w.st.image ∧
    (stepWorld w Event.click).calls = w.calls + 1 ∧
    (stepWorld w Event.click).outstanding = w.outstanding + 1 ∧
    (stepWorld w Event.click).st.loading = true ∧
    netCount requestPhase = 1 :=
  ⟨rfl, rfl, rfl, rfl, rfl⟩

/-- C9: `fetchNewImage` is idempotent on the image with respect to
identical successful responses: after a success with body
`image = X` the image equals `X`, and a further invocation resolving
with the same body leaves the whole state unchanged. -/
theorem C9_idempotent_on_identical_success (s : ImageState) (x : String) :
    (fetchNewImage s (successOutcome x)).image = some x ∧
    fetchNewImage (fetchNewImage s (successOutcome x)) (successOutcome x) =
      fetchNewImage s (successOutcome x) :=
  ⟨rfl, rfl⟩

/-- C10: an ok response whose body parses to an object without an
`image` field takes the success path: the image becomes the
undefined value, loading becomes false, and nothing is logged. -/
theorem C10_missing_field_takes_success_path (s : ImageState) :
    fetchNewImage s (FetchOutcome.response true (Except.ok ⟨none⟩)) =
      { image := none, loading := false } ∧
    logsOf (fetchNewImageActions (FetchOutcome.response true (Except.ok ⟨none⟩))) = [] :=
  ⟨rfl, rfl⟩
